import Mathlib

/-!
HTTP client of the master/worker letter counter.

A shallow embedding of `client/src/http_client.cpp` and `http_client.h`:
the endpoint configuration, `process_text`, `process_file`,
`check_master_health`, `make_request` and `parse_response`.

Conventions of the embedding.

* `std::string` is a Lean `String` (valid UTF-8 text).
* `int` is an `Int`; conversions into `int` wrap to 32 bits.
* `double` is the rational number the double denotes; literals and
  integers are rounded to the nearest double (ties to even).
* The network, the clock and the file system are inputs: a `Network`
  answers each request with an outcome and the measured milliseconds,
  a `FileSystem` maps a path to its content when it can be opened.
* Every operation that can reach the network returns, next to its
  value, the list of requests it issued.
* `Logger` calls only write log lines and are left out.
* C++ exceptions are values of `Exn`; a `try`/`catch` is a `match`.
* The two libraries the client is written against, nlohmann::json and
  cpp-httplib, are embedded as far as the client uses them: `Json`,
  `Json.parse`, the typed `value` lookups and `dump` for the former,
  the outcome of `Get`/`Post` for the latter.

Library behaviour the embedding relies on.

* `json::parse(text)` is strict: it throws `parse_error.101` on text
  that is not one JSON value, and `out_of_range.406` on a number that
  is not a finite double.
* `j.value(key, default)` returns the default only when `j` is an
  object without the key. When the key is present it returns
  `get<T>()` of the member, which throws `type_error.302` on a member
  whose type does not convert to `T`; when `j` is not an object it
  throws `type_error.306`.
* `get<bool>()` accepts a boolean, `get<std::string>()` a string,
  `get<double>()` every number, and `get<int>()` every number and a
  boolean.
* `dump()` throws only on text that is not valid UTF-8, which a
  `String` cannot hold, so `process_text` always reaches the call.
-/

namespace MasterClient

/-! ## Exceptions -/

/-- A thrown `std::exception`, identified by its `what()` text. The
library messages carry the library's exception id; the free text after
it is abridged. -/
structure Exn where
  what : String
  deriving DecidableEq

/-- The `json.exception.parse_error.101` exception. -/
def parse_error (detail : String) : Exn :=
  ⟨"[json.exception.parse_error.101] parse error: " ++ detail⟩

/-- The `json.exception.out_of_range.406` exception. -/
def out_of_range (detail : String) : Exn :=
  ⟨"[json.exception.out_of_range.406] " ++ detail⟩

/-- The `json.exception.type_error.302` exception. -/
def type_error_302 (detail : String) : Exn :=
  ⟨"[json.exception.type_error.302] " ++ detail⟩

/-- The `json.exception.type_error.306` exception. -/
def type_error_306 (detail : String) : Exn :=
  ⟨"[json.exception.type_error.306] " ++ detail⟩

/-! ## Numbers -/

/-- The `std::to_string(int)` rendering: decimal digits, with a leading
minus sign for negative values. -/
def to_string (i : Int) : String :=
  match i with
  | Int.ofNat n => Nat.repr n
  | Int.negSucc n => "-" ++ Nat.repr (n + 1)

/-- Conversion `static_cast<int>` of an integer value: two's complement
wrap to 32 bits. -/
def wrap_int32 (i : Int) : Int :=
  (i + 2 ^ 31) % 2 ^ 32 - 2 ^ 31

/-- Position of the leading bit of `n`, by repeated halving; `fuel`
bounds the number of halvings. -/
def log2_loop : Nat → Nat → Nat
  | 0, _ => 0
  | fuel + 1, n => if n < 2 then 0 else log2_loop fuel (n / 2) + 1

/-- Position of the leading bit of `n`: the `k` with `2 ^ k ≤ n < 2 ^ (k + 1)`
for positive `n`. -/
def log2 (n : Nat) : Nat :=
  log2_loop n n

/-- Exponent of the leading bit of the positive rational `n / d`: the
integer `e` with `2 ^ e ≤ n / d < 2 ^ (e + 1)`. -/
def floor_log2 (n d : Nat) : Int :=
  let e : Int := (log2 n : Int) - (log2 d : Int)
  let below : Bool :=
    if 0 ≤ e then decide (n < d * 2 ^ e.toNat) else decide (n * 2 ^ (-e).toNat < d)
  if below then e - 1 else e

/-- Nearest double to the rational `sign * n / d` (round to nearest,
ties to even, gradual underflow), or `none` when the result is not
finite. -/
def round_to_double (negative : Bool) (n d : Nat) : Option ℚ :=
  if n = 0 ∨ d = 0 then some 0 else
  let e : Int := max (floor_log2 n d) (-1022)
  -- the unit in the last place is `2 ^ (e - 52)`
  let s : Int := 52 - e
  let num : Nat := if 0 ≤ s then n * 2 ^ s.toNat else n
  let den : Nat := if 0 ≤ s then d else d * 2 ^ (-s).toNat
  let m : Nat := num / den
  let r : Nat := num % den
  let m : Nat := if den < 2 * r ∨ (2 * r = den ∧ m % 2 = 1) then m + 1 else m
  let mag_num : Nat := if 0 ≤ s then m else m * 2 ^ (-s).toNat
  let mag_den : Nat := if 0 ≤ s then 2 ^ s.toNat else 1
  -- `m` has at most 53 bits, so the magnitude reaches `2 ^ 1024` only here
  if 1024 ≤ e ∨ (e = 1023 ∧ m = 2 ^ 53) then none
  else some (mkRat (if negative then -(mag_num : Int) else (mag_num : Int)) mag_den)

/-- Conversion `static_cast<double>` of an integer value. -/
def int_to_double (i : Int) : ℚ :=
  (round_to_double (decide (i < 0)) i.natAbs 1).getD 0

/-- Conversion `static_cast<int>` of a double: truncation toward zero
(the C++ result is undefined when the truncated value is not an `int`;
the embedding wraps it). -/
def double_to_int (x : ℚ) : Int :=
  wrap_int32 (if 0 ≤ x.num then x.num / x.den else -((-x.num) / x.den))

/-! ## JSON values -/

/-- A `nlohmann::json` value. An object keeps one member per key. -/
inductive Json where
  | null
  | boolean (b : Bool)
  | number_integer (i : Int)
  | number_unsigned (n : Nat)
  | number_float (x : ℚ)
  | string (s : String)
  | array (elements : List Json)
  | object (members : List (String × Json))

namespace Json

/-- The `type_name()` of a value. -/
def type_name : Json → String
  | null => "null"
  | boolean _ => "boolean"
  | number_integer _ => "number"
  | number_unsigned _ => "number"
  | number_float _ => "number"
  | string _ => "string"
  | array _ => "array"
  | object _ => "object"

/-- The `is_object()` test. -/
def is_object : Json → Bool
  | object _ => true
  | _ => false

/-- Assignment `obj[key] = v` on the members of an object: replaces the
member with that key or adds one. -/
def set_member (key : String) (v : Json) :
    List (String × Json) → List (String × Json)
  | [] => [(key, v)]
  | (k, w) :: rest =>
    if k = key then (k, v) :: rest else (k, w) :: set_member key v rest

/-- The `find(key)` lookup on the members of an object. -/
def find (key : String) : List (String × Json) → Option Json
  | [] => none
  | (k, w) :: rest => if k = key then some w else find key rest

/-- The typed read `get<bool>()`. -/
def get_bool : Json → Except Exn Bool
  | boolean b => .ok b
  | j => .error (type_error_302 ("type must be boolean, but is " ++ j.type_name))

/-- The typed read `get<int>()`: every number converts, and so does a
boolean. -/
def get_int : Json → Except Exn Int
  | number_unsigned n => .ok (wrap_int32 n)
  | number_integer i => .ok (wrap_int32 i)
  | number_float x => .ok (double_to_int x)
  | boolean b => .ok (if b then 1 else 0)
  | j => .error (type_error_302 ("type must be number, but is " ++ j.type_name))

/-- The typed read `get<double>()`: every number converts. -/
def get_double : Json → Except Exn ℚ
  | number_unsigned n => .ok (int_to_double n)
  | number_integer i => .ok (int_to_double i)
  | number_float x => .ok x
  | j => .error (type_error_302 ("type must be number, but is " ++ j.type_name))

/-- The typed read `get<std::string>()`. -/
def get_string : Json → Except Exn String
  | string s => .ok s
  | j => .error (type_error_302 ("type must be string, but is " ++ j.type_name))

/-- The lookup `j.value(key, default_value)` at the type read by `get`:
the default when the object has no such member, the typed read of the
member when it has one, and an exception when `j` is not an object. -/
def value {α : Type} (get : Json → Except Exn α) (j : Json) (key : String)
    (default_value : α) : Except Exn α :=
  match j with
  | object members =>
    match find key members with
    | some v => get v
    | none => .ok default_value
  | _ => .error (type_error_306 ("cannot use value() with " ++ j.type_name))

end Json

/-! ## The JSON lexer -/

/-- Tokens of the JSON grammar. -/
inductive Token where
  | begin_array
  | end_array
  | begin_object
  | end_object
  | name_separator
  | value_separator
  | literal_true
  | literal_false
  | literal_null
  | value_string (s : String)
  | value_unsigned (n : Nat)
  | value_integer (i : Int)
  | value_float (x : ℚ)
  | end_of_input

/-- Value of a hexadecimal digit. -/
def hex_value (c : Char) : Option Nat :=
  if '0' ≤ c ∧ c ≤ '9' then some (c.toNat - '0'.toNat)
  else if 'a' ≤ c ∧ c ≤ 'f' then some (c.toNat - 'a'.toNat + 10)
  else if 'A' ≤ c ∧ c ≤ 'F' then some (c.toNat - 'A'.toNat + 10)
  else none

/-- Code point written by the four hexadecimal digits of a `\u` escape. -/
def codepoint (a b c d : Char) : Option Nat :=
  match hex_value a, hex_value b, hex_value c, hex_value d with
  | some x, some y, some z, some w => some (((x * 16 + y) * 16 + z) * 16 + w)
  | _, _, _, _ => none

/-- Character denoted by a one-letter escape. -/
def simple_escape (c : Char) : Option Char :=
  if c = '"' then some '"'
  else if c = '\\' then some '\\'
  else if c = '/' then some '/'
  else if c = 'b' then some (Char.ofNat 8)
  else if c = 'f' then some (Char.ofNat 12)
  else if c = 'n' then some '\n'
  else if c = 'r' then some '\r'
  else if c = 't' then some '\t'
  else none

/-- Adds a decoded character in front of a scanned string and counts
the `n` input characters that wrote it. -/
def scanned (c : Char) (n : Nat) :
    Except Exn (List Char × Nat) → Except Exn (List Char × Nat)
  | .ok (s, k) => .ok (c :: s, k + n)
  | .error e => .error e

/-- Scans a string literal after its opening quote: the decoded
characters and the number of input characters up to and including the
closing quote. -/
def scan_string : List Char → Except Exn (List Char × Nat)
  | [] => .error (parse_error "invalid string: missing closing quote")
  | c :: rest =>
    if c = '"' then .ok ([], 1)
    else if c = '\\' then
      match rest with
      | [] => .error (parse_error "invalid string: missing closing quote")
      | e :: rest1 =>
        if e = 'u' then
          match rest1 with
          | h1 :: h2 :: h3 :: h4 :: rest2 =>
            match codepoint h1 h2 h3 h4 with
            | none =>
              .error (parse_error "invalid string: '\\u' must be followed by 4 hex digits")
            | some cp1 =>
              if 0xD800 ≤ cp1 ∧ cp1 ≤ 0xDBFF then
                match rest2 with
                | b :: u :: l1 :: l2 :: l3 :: l4 :: rest3 =>
                  if b = '\\' ∧ u = 'u' then
                    match codepoint l1 l2 l3 l4 with
                    | none =>
                      .error (parse_error
                        "invalid string: '\\u' must be followed by 4 hex digits")
                    | some cp2 =>
                      if 0xDC00 ≤ cp2 ∧ cp2 ≤ 0xDFFF then
                        scanned (Char.ofNat (cp1 * 1024 + cp2 - 0x35FDC00)) 12
                          (scan_string rest3)
                      else
                        .error (parse_error
                          "invalid string: surrogate U+D800..U+DBFF must be followed by U+DC00..U+DFFF")
                  else
                    .error (parse_error
                      "invalid string: surrogate U+D800..U+DBFF must be followed by U+DC00..U+DFFF")
                | _ =>
                  .error (parse_error
                    "invalid string: surrogate U+D800..U+DBFF must be followed by U+DC00..U+DFFF")
              else if 0xDC00 ≤ cp1 ∧ cp1 ≤ 0xDFFF then
                .error (parse_error
                  "invalid string: surrogate U+DC00..U+DFFF must follow U+D800..U+DBFF")
              else scanned (Char.ofNat cp1) 6 (scan_string rest2)
          | _ =>
            .error (parse_error "invalid string: '\\u' must be followed by 4 hex digits")
        else
          match simple_escape e with
          | some ch => scanned ch 2 (scan_string rest1)
          | none => .error (parse_error "invalid string: forbidden character after backslash")
    else if c.toNat < 0x20 then
      .error (parse_error "invalid string: control character must be escaped")
    else scanned c 1 (scan_string rest)

/-- Longest run of decimal digits at the head of the input, and what
follows it. -/
def take_digits : List Char → List Char × List Char
  | [] => ([], [])
  | c :: rest =>
    if c.isDigit then ((c :: (take_digits rest).1), (take_digits rest).2)
    else ([], c :: rest)

/-- Value of a run of decimal digits. -/
def digits_value (ds : List Char) : Nat :=
  ds.foldl (fun acc d => 10 * acc + (d.toNat - '0'.toNat)) 0

/-- Integer part of a number: a single `0`, or a run of digits that
starts with a non-zero digit. -/
def scan_integer_part : List Char → Except Exn (List Char × List Char)
  | [] => .error (parse_error "invalid number; expected digit")
  | c :: rest =>
    if c = '0' then .ok (['0'], rest)
    else if c.isDigit then .ok (take_digits (c :: rest))
    else .error (parse_error "invalid number; expected digit")

/-- Optional fraction of a number: the digits after the point. -/
def scan_fraction : List Char → Except Exn (Option (List Char) × List Char)
  | [] => .ok (none, [])
  | c :: rest =>
    if c = '.' then
      if (take_digits rest).1 = [] then
        .error (parse_error "invalid number; expected digit after '.'")
      else .ok (some (take_digits rest).1, (take_digits rest).2)
    else .ok (none, c :: rest)

/-- Optional exponent of a number: its value and the number of
characters that wrote it. -/
def scan_exponent : List Char → Except Exn (Option Int × Nat)
  | [] => .ok (none, 0)
  | c :: rest =>
    if c = 'e' ∨ c = 'E' then
      let negative : Bool := rest.head? = some '-'
      let sign_len : Nat := if rest.head? = some '-' ∨ rest.head? = some '+' then 1 else 0
      let ds := (take_digits (rest.drop sign_len)).1
      if ds = [] then
        .error (parse_error "invalid number; expected digit after exponent")
      else
        .ok (some (if negative then -(digits_value ds : Int) else (digits_value ds : Int)),
          1 + sign_len + ds.length)
    else .ok (none, 0)

/-- The double written by the digits `mantissa` scaled by `10 ^ scale`. -/
def scan_float (negative : Bool) (mantissa : Nat) (scale : Int) : Except Exn Token :=
  let num : Nat := if 0 ≤ scale then mantissa * 10 ^ scale.toNat else mantissa
  let den : Nat := if 0 ≤ scale then 1 else 10 ^ (-scale).toNat
  match round_to_double negative num den with
  | some x => .ok (.value_float x)
  | none => .error (out_of_range "number overflow parsing")

/-- Scans a number: its token and the number of characters it takes.
A literal without fraction and exponent is an unsigned integer when it
has no sign and fits 64 bits, a signed integer when it has a sign and
fits 64 bits, and a double otherwise. -/
def scan_number (cs : List Char) : Except Exn (Token × Nat) :=
  let negative : Bool := cs.head? = some '-'
  let sign_len : Nat := if negative then 1 else 0
  match scan_integer_part (cs.drop sign_len) with
  | .error e => .error e
  | .ok (int_digits, cs1) =>
    match scan_fraction cs1 with
    | .error e => .error e
    | .ok (fraction, cs2) =>
      match scan_exponent cs2 with
      | .error e => .error e
      | .ok (exponent, exp_len) =>
        let frac_digits : List Char := fraction.getD []
        let frac_len : Nat := if fraction.isSome then 1 + frac_digits.length else 0
        let consumed : Nat := sign_len + int_digits.length + frac_len + exp_len
        let n : Nat := digits_value int_digits
        if fraction.isNone ∧ exponent.isNone ∧ ¬ negative ∧ n < 2 ^ 64 then
          .ok (.value_unsigned n, consumed)
        else if fraction.isNone ∧ exponent.isNone ∧ negative ∧ n ≤ 2 ^ 63 then
          .ok (.value_integer (-(n : Int)), consumed)
        else
          match scan_float negative (digits_value (int_digits ++ frac_digits))
              (exponent.getD 0 - (frac_digits.length : Int)) with
          | .error e => .error e
          | .ok tok => .ok (tok, consumed)

/-- Puts a token in front of the tokens of the rest of the input. -/
def emit (tok : Token) : Except Exn (List Token) → Except Exn (List Token)
  | .ok toks => .ok (tok :: toks)
  | .error e => .error e

/-- Tests that the input starts with the given characters. -/
def starts_with : List Char → List Char → Bool
  | [], _ => true
  | _ :: _, [] => false
  | p :: ps, c :: cs => p = c && starts_with ps cs

/-- The lexer: the tokens of the input, closed by `end_of_input`. The
first argument counts characters of the current token still to skip.
A NUL character ends the input. -/
def scan : Nat → List Char → Except Exn (List Token)
  | _, [] => .ok [.end_of_input]
  | skip + 1, _ :: rest => scan skip rest
  | 0, c :: rest =>
    if c = ' ' ∨ c = '\t' ∨ c = '\n' ∨ c = '\r' then scan 0 rest
    else if c = Char.ofNat 0 then .ok [.end_of_input]
    else if c = '[' then emit .begin_array (scan 0 rest)
    else if c = ']' then emit .end_array (scan 0 rest)
    else if c = '{' then emit .begin_object (scan 0 rest)
    else if c = '}' then emit .end_object (scan 0 rest)
    else if c = ':' then emit .name_separator (scan 0 rest)
    else if c = ',' then emit .value_separator (scan 0 rest)
    else if c = 't' then
      if starts_with ['r', 'u', 'e'] rest then emit .literal_true (scan 3 rest)
      else .error (parse_error "invalid literal")
    else if c = 'f' then
      if starts_with ['a', 'l', 's', 'e'] rest then emit .literal_false (scan 4 rest)
      else .error (parse_error "invalid literal")
    else if c = 'n' then
      if starts_with ['u', 'l', 'l'] rest then emit .literal_null (scan 3 rest)
      else .error (parse_error "invalid literal")
    else if c = '"' then
      match scan_string rest with
      | .error e => .error e
      | .ok (s, n) => emit (.value_string (String.mk s)) (scan n rest)
    else if c = '-' ∨ c.isDigit then
      match scan_number (c :: rest) with
      | .error e => .error e
      | .ok (tok, n) => emit tok (scan (n - 1) rest)
    else .error (parse_error "invalid literal")

/-! ## The JSON parser -/

/-- An open container: an array with the elements read so far, or an
object with the members read so far and the key whose value is awaited. -/
inductive Frame where
  | array (elements : List Json)
  | object (members : List (String × Json)) (key : String)

/-- What the parser awaits next. -/
inductive Expect where
  | value
  | first_element
  | first_key
  | key
  | colon
  | separator
  | finished (j : Json)

/-- State of the parser: what it awaits and the open containers,
innermost first. -/
structure ParserState where
  expect : Expect
  stack : List Frame

/-- A value is complete: it is the document when no container is open,
and otherwise goes into the innermost one. -/
def complete (v : Json) : List Frame → ParserState
  | [] => ⟨.finished v, []⟩
  | .array elements :: stack => ⟨.separator, .array (elements ++ [v]) :: stack⟩
  | .object members key :: stack =>
    ⟨.separator, .object (Json.set_member key v members) key :: stack⟩

/-- A token where a value is awaited. -/
def accept_value (stack : List Frame) : Token → Except Exn ParserState
  | .begin_array => .ok ⟨.first_element, .array [] :: stack⟩
  | .begin_object => .ok ⟨.first_key, .object [] "" :: stack⟩
  | .literal_true => .ok (complete (.boolean true) stack)
  | .literal_false => .ok (complete (.boolean false) stack)
  | .literal_null => .ok (complete .null stack)
  | .value_string s => .ok (complete (.string s) stack)
  | .value_unsigned n => .ok (complete (.number_unsigned n) stack)
  | .value_integer i => .ok (complete (.number_integer i) stack)
  | .value_float x => .ok (complete (.number_float x) stack)
  | _ => .error (parse_error "syntax error while parsing value")

/-- A token where a key is awaited. -/
def accept_key (stack : List Frame) : Token → Except Exn ParserState
  | .value_string k =>
    match stack with
    | .object members _ :: rest => .ok ⟨.colon, .object members k :: rest⟩
    | _ => .error (parse_error "syntax error while parsing object key")
  | _ => .error (parse_error "syntax error while parsing object key")

/-- One step of the parser. -/
def parse_step (st : ParserState) (tok : Token) : Except Exn ParserState :=
  match st.expect, tok, st.stack with
  | .value, tok, stack => accept_value stack tok
  | .first_element, .end_array, .array elements :: stack => .ok (complete (.array elements) stack)
  | .first_element, tok, stack => accept_value stack tok
  | .first_key, .end_object, .object members _ :: stack =>
    .ok (complete (.object members) stack)
  | .first_key, tok, stack => accept_key stack tok
  | .key, tok, stack => accept_key stack tok
  | .colon, .name_separator, stack => .ok ⟨.value, stack⟩
  | .colon, _, _ => .error (parse_error "syntax error while parsing object separator")
  | .separator, .value_separator, .array elements :: stack =>
    .ok ⟨.value, .array elements :: stack⟩
  | .separator, .end_array, .array elements :: stack => .ok (complete (.array elements) stack)
  | .separator, .value_separator, .object members key :: stack =>
    .ok ⟨.key, .object members key :: stack⟩
  | .separator, .end_object, .object members _ :: stack =>
    .ok (complete (.object members) stack)
  | .separator, _, .array _ :: _ => .error (parse_error "syntax error while parsing array")
  | .separator, _, _ => .error (parse_error "syntax error while parsing object")
  | .finished j, .end_of_input, stack => .ok ⟨.finished j, stack⟩
  | .finished _, _, _ => .error (parse_error "syntax error while parsing value")

/-- Runs the parser over the tokens. -/
def parse_tokens : ParserState → List Token → Except Exn ParserState
  | st, [] => .ok st
  | st, tok :: rest =>
    match parse_step st tok with
    | .error e => .error e
    | .ok st1 => parse_tokens st1 rest

/-- Removes a byte order mark at the start of the input. -/
def skip_bom : List Char → List Char
  | [] => []
  | c :: rest => if c = Char.ofNat 0xFEFF then rest else c :: rest

/-- The strict parse `json::parse(text)`: one JSON value, with nothing
but white space around it. -/
def Json.parse (text : String) : Except Exn Json :=
  match scan 0 (skip_bom text.data) with
  | .error e => .error e
  | .ok toks =>
    match parse_tokens ⟨.value, []⟩ toks with
    | .error e => .error e
    | .ok st =>
      match st.expect with
      | .finished j => .ok j
      | _ => .error (parse_error "unexpected end of input")

/-! ## Serialisation of the request -/

/-- Lower-case hexadecimal digit. -/
def hex_digit (n : Nat) : Char :=
  if n < 10 then Char.ofNat ('0'.toNat + n) else Char.ofNat ('a'.toNat + (n - 10))

/-- The escaped form of one character inside a dumped string; text
outside ASCII is written as it is. -/
def escape_char (c : Char) : List Char :=
  if c = '"' then ['\\', '"']
  else if c = '\\' then ['\\', '\\']
  else if c = Char.ofNat 8 then ['\\', 'b']
  else if c = Char.ofNat 12 then ['\\', 'f']
  else if c = '\n' then ['\\', 'n']
  else if c = '\r' then ['\\', 'r']
  else if c = '\t' then ['\\', 't']
  else if c.toNat < 0x20 then
    ['\\', 'u', '0', '0', hex_digit (c.toNat / 16), hex_digit (c.toNat % 16)]
  else [c]

/-- The `dump()` of a string value. -/
def dump_string (s : String) : String :=
  "\"" ++ String.mk (s.data.flatMap escape_char) ++ "\""

/-- The `dump()` of the object built by `request_data["text"] = text`. -/
def dump_text_request (text : String) : String :=
  "\x7b\"text\":" ++ dump_string text ++ "\x7d"

/-! ## The client -/

/-- Result of one processing request (`struct ProcessingResult`), with
the defaults of its member initialisers. -/
structure ProcessingResult where
  success : Bool := false
  letters_count : Int := 0
  numbers_count : Int := 0
  total_characters : Int := 0
  processing_time_ms : ℚ := 0
  error_message : String := ""
  raw_response : String := ""
  deriving DecidableEq

/-- One HTTP call as the client sets it up: the server address, the two
time limits in seconds, and the request itself. -/
structure HttpRequest where
  host : String
  port : Int
  connection_timeout : Nat
  read_timeout : Nat
  method : String
  path : String
  headers : List (String × String)
  body : String
  content_type : String
  deriving DecidableEq

/-- What a call yields: an empty `httplib::Result`, a response with its
status and body, or an exception thrown inside the `try` block. -/
inductive HttpOutcome where
  | no_response
  | response (status : Int) (body : String)
  | exception (e : Exn)
  deriving DecidableEq

/-- The world outside the client: the outcome of each call and the
milliseconds the clock counts around it. -/
structure Network where
  answer : HttpRequest → HttpOutcome
  elapsed_ms : HttpRequest → Int

/-- A network that gives every call the same outcome and the same
measured time. -/
def Network.fixed (outcome : HttpOutcome) (ms : Int) : Network :=
  ⟨fun _ => outcome, fun _ => ms⟩

/-- The files that can be opened, with their content. -/
abbrev FileSystem := String → Option String

/-- The data members of `class HttpClient`. -/
structure HttpClient where
  master_host : String
  master_port : Int
  master_url : String
  deriving DecidableEq

namespace HttpClient

/-- Method `HttpClient::update_master_url`. -/
def update_master_url (c : HttpClient) : HttpClient :=
  { c with master_url := "http://" ++ c.master_host ++ ":" ++ to_string c.master_port }

/-- The constructor `HttpClient::HttpClient(host, port)`. -/
def new (host : String) (port : Int) : HttpClient :=
  update_master_url { master_host := host, master_port := port, master_url := "" }

/-- Method `HttpClient::set_master_address`. -/
def set_master_address (c : HttpClient) (host : String) (port : Int) : HttpClient :=
  update_master_url { c with master_host := host, master_port := port }

/-- Method `HttpClient::get_master_url`. -/
def get_master_url (c : HttpClient) : String :=
  c.master_url

/-- Method `HttpClient::read_file_content`. -/
def read_file_content (fs : FileSystem) (file_path : String) : Except Exn String :=
  match fs file_path with
  | none => .error ⟨"Não foi possível abrir o arquivo: " ++ file_path⟩
  | some content => .ok content

/-- The `catch` block of `parse_response`. -/
def parse_failure (result : ProcessingResult) (response : String) (e : Exn) :
    ProcessingResult :=
  { result with
    success := false
    error_message := "Erro ao parsear resposta JSON: " ++ e.what
    raw_response := response }

/-- Method `HttpClient::parse_response`. The result starts from the defaults;
an exception leaves the `try` block at the statement that throws, with
the members assigned so far. -/
def parse_response (response : String) : ProcessingResult :=
  let result : ProcessingResult := {}
  match Json.parse response with
  | .error e => parse_failure result response e
  | .ok response_json =>
  match Json.value Json.get_bool response_json "success" false with
  | .error e => parse_failure result response e
  | .ok v =>
  let result := { result with success := v }
  match Json.value Json.get_int response_json "letters_count" 0 with
  | .error e => parse_failure result response e
  | .ok v =>
  let result := { result with letters_count := v }
  match Json.value Json.get_int response_json "numbers_count" 0 with
  | .error e => parse_failure result response e
  | .ok v =>
  let result := { result with numbers_count := v }
  match Json.value Json.get_int response_json "total_characters" 0 with
  | .error e => parse_failure result response e
  | .ok v =>
  let result := { result with total_characters := v }
  match Json.value Json.get_double response_json "processing_time_ms" 0 with
  | .error e => parse_failure result response e
  | .ok v =>
  let result := { result with processing_time_ms := v }
  match Json.value Json.get_string response_json "error_message" "" with
  | .error e => parse_failure result response e
  | .ok v =>
  let result := { result with error_message := v }
  { result with raw_response := response }

/-- The call `client.Post(endpoint, headers, data, "application/json")`
of `make_request`, on a client with time limits of 10 and 30 seconds. -/
def post_request (c : HttpClient) (endpoint data : String) : HttpRequest :=
  { host := c.master_host
    port := c.master_port
    connection_timeout := 10
    read_timeout := 30
    method := "POST"
    path := endpoint
    headers := [("Content-Type", "application/json")]
    body := data
    content_type := "application/json" }

/-- Method `HttpClient::make_request`: the result and the calls issued. -/
def make_request (c : HttpClient) (net : Network) (endpoint data : String) :
    ProcessingResult × List HttpRequest :=
  let result : ProcessingResult := {}
  let request := c.post_request endpoint data
  match net.answer request with
  | .exception e =>
    ({ result with success := false, error_message := "Exceção: " ++ e.what }, [request])
  | .no_response =>
    ({ result with success := false, error_message := "Falha na conexão com o servidor" },
      [request])
  | .response status body =>
    let result := { result with
      raw_response := body
      processing_time_ms := int_to_double (net.elapsed_ms request) }
    if status = 200 then (parse_response body, [request])
    else
      ({ result with success := false, error_message := "Erro HTTP " ++ to_string status },
        [request])

/-- Method `HttpClient::process_text`. -/
def process_text (c : HttpClient) (net : Network) (text : String) :
    ProcessingResult × List HttpRequest :=
  c.make_request net "/process" (dump_text_request text)

/-- Method `HttpClient::process_file`. -/
def process_file (c : HttpClient) (fs : FileSystem) (net : Network) (file_path : String) :
    ProcessingResult × List HttpRequest :=
  match read_file_content fs file_path with
  | .ok content => c.process_text net content
  | .error e =>
    ({ success := false, error_message := "Erro ao ler arquivo: " ++ e.what }, [])

/-- The call `client.Get("/health")` of `check_master_health`, on a
client with time limits of 5 and 10 seconds. -/
def health_request (c : HttpClient) : HttpRequest :=
  { host := c.master_host
    port := c.master_port
    connection_timeout := 5
    read_timeout := 10
    method := "GET"
    path := "/health"
    headers := []
    body := ""
    content_type := "" }

/-- Method `HttpClient::check_master_health`: the verdict and the calls issued. -/
def check_master_health (c : HttpClient) (net : Network) : Bool × List HttpRequest :=
  let request := c.health_request
  match net.answer request with
  | .exception _ => (false, [request])
  | .no_response => (false, [request])
  | .response status _ =>
    if status = 200 then (true, [request]) else (false, [request])

/-- The `POST /process` call that `process_text` issues for a text. -/
def process_call (c : HttpClient) (text : String) : HttpRequest :=
  c.post_request "/process" (dump_text_request text)

/-- Client states that the program can reach: the constructor, followed
by any number of `set_master_address` calls. -/
inductive Reachable : HttpClient → Prop where
  | constructed (host : String) (port : Int) : Reachable (new host port)
  | reconfigured (c : HttpClient) (host : String) (port : Int) :
    Reachable c → Reachable (c.set_master_address host port)

end HttpClient

/-! ## Reading of the payload in the words of the wire contract -/

/-- A string `s` contains the text `t`. -/
def contains_text (s t : String) : Prop :=
  ∃ before after : String, s = before ++ t ++ after

/-- A JSON boolean, the type expected of `success`. -/
def Json.as_bool : Json → Option Bool
  | .boolean b => some b
  | _ => none

/-- A JSON integer that is an `int`, the type expected of the counts. -/
def Json.as_int : Json → Option Int
  | .number_unsigned n => if n < 2 ^ 31 then some (n : Int) else none
  | .number_integer i => if -2 ^ 31 ≤ i ∧ i < 2 ^ 31 then some i else none
  | _ => none

/-- A JSON number as a double, the type expected of
`processing_time_ms`. -/
def Json.as_number : Json → Option ℚ
  | .number_float x => some x
  | .number_unsigned n => some (int_to_double n)
  | .number_integer i => some (int_to_double i)
  | _ => none

/-- A JSON string, the type expected of `error_message`. -/
def Json.as_string : Json → Option String
  | .string s => some s
  | _ => none

/-- The member `key` is absent, or present with the type that `as`
expects. -/
def absent_or_typed {α : Type} (as : Json → Option α) (key : String)
    (members : List (String × Json)) : Bool :=
  match Json.find key members with
  | none => true
  | some v => (as v).isSome

/-- The member `key` read with the type that `as` expects, and the
default when the object has no such member. -/
def field_or {α : Type} (as : Json → Option α) (key : String)
    (members : List (String × Json)) (default_value : α) : α :=
  match Json.find key members with
  | none => default_value
  | some v => (as v).getD default_value

/-- The member `key` is absent or the typed read `get` accepts it. -/
def readable {α : Type} (get : Json → Except Exn α) (key : String)
    (members : List (String × Json)) : Bool :=
  match Json.find key members with
  | none => true
  | some v =>
    match get v with
    | .ok _ => true
    | .error _ => false

/-- The member `key` is present with a value that the typed read `get`
rejects. -/
def rejected {α : Type} (get : Json → Except Exn α) (key : String)
    (members : List (String × Json)) : Prop :=
  readable get key members = false

/-! ## Auxiliary facts -/

theorem except_cases {ε α : Type} (x : Except ε α) :
    (∃ e, x = .error e) ∨ (∃ a, x = .ok a) := by
  cases x with
  | error e => exact Or.inl ⟨e, rfl⟩
  | ok a => exact Or.inr ⟨a, rfl⟩

theorem wrap_int32_of_int (i : Int) (h1 : -2 ^ 31 ≤ i) (h2 : i < 2 ^ 31) :
    wrap_int32 i = i := by
  unfold wrap_int32
  omega

theorem append_ne_empty_of_left (a b : String) (h : a ≠ "") : a ++ b ≠ "" := by
  intro hab
  apply h
  have hlen : (a ++ b).length = 0 := by rw [hab]; rfl
  rw [String.length_append] at hlen
  have ha : a.length = 0 := by omega
  exact String.ext (List.length_eq_zero.mp ha)

open HttpClient

theorem value_of_not_object {α : Type} (get : Json → Except Exn α) (j : Json)
    (key : String) (d : α) (h : j.is_object = false) :
    Json.value get j key d
      = .error (type_error_306 ("cannot use value() with " ++ j.type_name)) := by
  cases j <;> simp [Json.is_object] at h <;> rfl

theorem value_bool_of_typed (members : List (String × Json)) (key : String) (d : Bool)
    (h : absent_or_typed Json.as_bool key members = true) :
    Json.value Json.get_bool (.object members) key d
      = .ok (field_or Json.as_bool key members d) := by
  unfold absent_or_typed at h
  cases hf : Json.find key members with
  | none => simp [Json.value, field_or, hf]
  | some v =>
    rw [hf] at h
    cases v <;> simp [Json.as_bool] at h
    simp [Json.value, field_or, hf, Json.get_bool, Json.as_bool]

theorem value_int_of_typed (members : List (String × Json)) (key : String) (d : Int)
    (h : absent_or_typed Json.as_int key members = true) :
    Json.value Json.get_int (.object members) key d
      = .ok (field_or Json.as_int key members d) := by
  unfold absent_or_typed at h
  cases hf : Json.find key members with
  | none => simp [Json.value, field_or, hf]
  | some v =>
    rw [hf] at h
    cases v with
    | number_unsigned n =>
      by_cases hn : n < 2 ^ 31
      · have hw : wrap_int32 (n : Int) = (n : Int) :=
          wrap_int32_of_int _ (by omega) (by exact_mod_cast hn)
        simp only [Json.value, field_or, hf, Json.as_int, Json.get_int, hw, if_pos hn,
          Option.getD_some]
      · simp only [Json.as_int, if_neg hn] at h
        simp at h
    | number_integer i =>
      by_cases hi : -2 ^ 31 ≤ i ∧ i < 2 ^ 31
      · have hw : wrap_int32 i = i := wrap_int32_of_int _ hi.1 hi.2
        simp only [Json.value, field_or, hf, Json.as_int, Json.get_int, hw, if_pos hi,
          Option.getD_some]
      · simp only [Json.as_int, if_neg hi] at h
        simp at h
    | _ => simp [Json.as_int] at h

theorem value_double_of_typed (members : List (String × Json)) (key : String) (d : ℚ)
    (h : absent_or_typed Json.as_number key members = true) :
    Json.value Json.get_double (.object members) key d
      = .ok (field_or Json.as_number key members d) := by
  unfold absent_or_typed at h
  cases hf : Json.find key members with
  | none => simp [Json.value, field_or, hf]
  | some v =>
    rw [hf] at h
    cases v <;> simp [Json.as_number] at h <;>
      simp [Json.value, field_or, hf, Json.get_double, Json.as_number]

theorem value_string_of_typed (members : List (String × Json)) (key : String) (d : String)
    (h : absent_or_typed Json.as_string key members = true) :
    Json.value Json.get_string (.object members) key d
      = .ok (field_or Json.as_string key members d) := by
  unfold absent_or_typed at h
  cases hf : Json.find key members with
  | none => simp [Json.value, field_or, hf]
  | some v =>
    rw [hf] at h
    cases v <;> simp [Json.as_string] at h
    simp [Json.value, field_or, hf, Json.get_string, Json.as_string]

theorem value_of_find_none {α : Type} (get : Json → Except Exn α)
    (members : List (String × Json)) (key : String) (d : α)
    (h : Json.find key members = none) :
    Json.value get (.object members) key d = .ok d := by
  simp only [Json.value, h]

theorem value_of_find_some {α : Type} (get : Json → Except Exn α)
    (members : List (String × Json)) (key : String) (d : α) (v : Json)
    (h : Json.find key members = some v) :
    Json.value get (.object members) key d = get v := by
  simp only [Json.value, h]

theorem value_ok_is_object {α : Type} (get : Json → Except Exn α) (j : Json)
    (key : String) (d a : α) (h : Json.value get j key d = .ok a) :
    ∃ members, j = .object members := by
  cases hj : j.is_object with
  | false =>
    rw [value_of_not_object get j key d hj] at h
    cases h
  | true =>
    cases j <;> simp [Json.is_object] at hj
    exact ⟨_, rfl⟩

theorem readable_of_ok {α : Type} (get : Json → Except Exn α)
    (members : List (String × Json)) (key : String) (d a : α)
    (h : Json.value get (.object members) key d = .ok a) :
    readable get key members = true := by
  unfold readable
  cases hf : Json.find key members with
  | none => rfl
  | some v =>
    rw [value_of_find_some get members key d v hf] at h
    simp only [h]

theorem not_rejected_of_ok {α : Type} (get : Json → Except Exn α)
    (members : List (String × Json)) (key : String) (d a : α)
    (h : Json.value get (.object members) key d = .ok a) :
    ¬ rejected get key members := by
  unfold rejected
  rw [readable_of_ok get members key d a h]
  decide

theorem value_ok_of_readable {α : Type} (get : Json → Except Exn α)
    (members : List (String × Json)) (key : String) (d : α)
    (h : readable get key members = true) :
    ∃ a, Json.value get (.object members) key d = .ok a := by
  unfold readable at h
  cases hf : Json.find key members with
  | none => exact ⟨d, value_of_find_none get members key d hf⟩
  | some v =>
    rw [hf] at h
    rw [value_of_find_some get members key d v hf]
    cases hg : get v with
    | ok a => exact ⟨a, rfl⟩
    | error e =>
      simp only [hg] at h
      cases h

theorem get_bool_error (v : Json) (e : Exn) (h : v.get_bool = .error e) :
    ∃ detail, e = type_error_302 detail := by
  cases v <;> simp [Json.get_bool] at h <;> exact ⟨_, h.symm⟩

theorem get_int_error (v : Json) (e : Exn) (h : v.get_int = .error e) :
    ∃ detail, e = type_error_302 detail := by
  cases v <;> simp [Json.get_int] at h <;> exact ⟨_, h.symm⟩

theorem get_double_error (v : Json) (e : Exn) (h : v.get_double = .error e) :
    ∃ detail, e = type_error_302 detail := by
  cases v <;> simp [Json.get_double] at h <;> exact ⟨_, h.symm⟩

theorem get_string_error (v : Json) (e : Exn) (h : v.get_string = .error e) :
    ∃ detail, e = type_error_302 detail := by
  cases v <;> simp [Json.get_string] at h <;> exact ⟨_, h.symm⟩

theorem value_error_is_type_error {α : Type} (get : Json → Except Exn α)
    (hget : ∀ v e, get v = .error e → ∃ detail, e = type_error_302 detail)
    (members : List (String × Json)) (key : String) (d : α) (e : Exn)
    (h : Json.value get (.object members) key d = .error e) :
    ∃ detail, e = type_error_302 detail := by
  cases hf : Json.find key members with
  | none =>
    rw [value_of_find_none get members key d hf] at h
    cases h
  | some v =>
    rw [value_of_find_some get members key d v hf] at h
    exact hget v e h

theorem value_bool_true (members : List (String × Json)) (key : String)
    (h : Json.value Json.get_bool (.object members) key false = .ok true) :
    Json.find key members = some (.boolean true) := by
  cases hf : Json.find key members with
  | none =>
    rw [value_of_find_none Json.get_bool members key false hf] at h
    cases h
  | some v =>
    rw [value_of_find_some Json.get_bool members key false v hf] at h
    cases v <;> simp [Json.get_bool] at h
    rw [h]

theorem value_string_read (members : List (String × Json)) (key : String) (d m : String)
    (h : Json.value Json.get_string (.object members) key d = .ok m) :
    m = field_or Json.as_string key members d := by
  cases hf : Json.find key members with
  | none =>
    rw [value_of_find_none Json.get_string members key d hf] at h
    simp only [field_or, hf]
    cases h
    rfl
  | some v =>
    rw [value_of_find_some Json.get_string members key d v hf] at h
    cases v <;> simp [Json.get_string] at h
    simp [field_or, hf, Json.as_string, h]

/-! The outcomes of `parse_response`, one per statement that can throw. -/

theorem parse_response_of_parse_error (body : String) (e : Exn)
    (hp : Json.parse body = .error e) :
    parse_response body = parse_failure {} body e := by
  simp only [parse_response, hp]

theorem parse_response_fail_success (body : String) (j : Json) (e : Exn)
    (hp : Json.parse body = .ok j)
    (h1 : Json.value Json.get_bool j "success" false = .error e) :
    parse_response body = parse_failure {} body e := by
  simp only [parse_response, hp, h1]

theorem parse_response_fail_letters (body : String) (j : Json) (e : Exn) (a : Bool)
    (hp : Json.parse body = .ok j)
    (h1 : Json.value Json.get_bool j "success" false = .ok a)
    (h2 : Json.value Json.get_int j "letters_count" 0 = .error e) :
    parse_response body = parse_failure { success := a } body e := by
  simp only [parse_response, hp, h1, h2]

theorem parse_response_fail_numbers (body : String) (j : Json) (e : Exn) (a : Bool)
    (l : Int) (hp : Json.parse body = .ok j)
    (h1 : Json.value Json.get_bool j "success" false = .ok a)
    (h2 : Json.value Json.get_int j "letters_count" 0 = .ok l)
    (h3 : Json.value Json.get_int j "numbers_count" 0 = .error e) :
    parse_response body = parse_failure { success := a, letters_count := l } body e := by
  simp only [parse_response, hp, h1, h2, h3]

theorem parse_response_fail_total (body : String) (j : Json) (e : Exn) (a : Bool)
    (l n : Int) (hp : Json.parse body = .ok j)
    (h1 : Json.value Json.get_bool j "success" false = .ok a)
    (h2 : Json.value Json.get_int j "letters_count" 0 = .ok l)
    (h3 : Json.value Json.get_int j "numbers_count" 0 = .ok n)
    (h4 : Json.value Json.get_int j "total_characters" 0 = .error e) :
    parse_response body
      = parse_failure { success := a, letters_count := l, numbers_count := n } body e := by
  simp only [parse_response, hp, h1, h2, h3, h4]

theorem parse_response_fail_time (body : String) (j : Json) (e : Exn) (a : Bool)
    (l n t : Int) (hp : Json.parse body = .ok j)
    (h1 : Json.value Json.get_bool j "success" false = .ok a)
    (h2 : Json.value Json.get_int j "letters_count" 0 = .ok l)
    (h3 : Json.value Json.get_int j "numbers_count" 0 = .ok n)
    (h4 : Json.value Json.get_int j "total_characters" 0 = .ok t)
    (h5 : Json.value Json.get_double j "processing_time_ms" 0 = .error e) :
    parse_response body
      = parse_failure
          { success := a, letters_count := l, numbers_count := n, total_characters := t }
          body e := by
  simp only [parse_response, hp, h1, h2, h3, h4, h5]

theorem parse_response_fail_message (body : String) (j : Json) (e : Exn) (a : Bool)
    (l n t : Int) (x : ℚ) (hp : Json.parse body = .ok j)
    (h1 : Json.value Json.get_bool j "success" false = .ok a)
    (h2 : Json.value Json.get_int j "letters_count" 0 = .ok l)
    (h3 : Json.value Json.get_int j "numbers_count" 0 = .ok n)
    (h4 : Json.value Json.get_int j "total_characters" 0 = .ok t)
    (h5 : Json.value Json.get_double j "processing_time_ms" 0 = .ok x)
    (h6 : Json.value Json.get_string j "error_message" "" = .error e) :
    parse_response body
      = parse_failure
          { success := a, letters_count := l, numbers_count := n, total_characters := t,
            processing_time_ms := x }
          body e := by
  simp only [parse_response, hp, h1, h2, h3, h4, h5, h6]

theorem parse_response_all_read (body : String) (j : Json) (a : Bool)
    (l n t : Int) (x : ℚ) (m : String) (hp : Json.parse body = .ok j)
    (h1 : Json.value Json.get_bool j "success" false = .ok a)
    (h2 : Json.value Json.get_int j "letters_count" 0 = .ok l)
    (h3 : Json.value Json.get_int j "numbers_count" 0 = .ok n)
    (h4 : Json.value Json.get_int j "total_characters" 0 = .ok t)
    (h5 : Json.value Json.get_double j "processing_time_ms" 0 = .ok x)
    (h6 : Json.value Json.get_string j "error_message" "" = .ok m) :
    parse_response body
      = { success := a, letters_count := l, numbers_count := n, total_characters := t,
          processing_time_ms := x, error_message := m, raw_response := body } := by
  simp only [parse_response, hp, h1, h2, h3, h4, h5, h6]

/-- Every run of `parse_response` either reads all six fields or ends
in the `catch` block with some of the leading fields assigned. -/
theorem parse_response_cases (body : String) :
    (∃ j a l n t x m, Json.parse body = .ok j ∧
      Json.value Json.get_bool j "success" false = .ok a ∧
      Json.value Json.get_int j "letters_count" 0 = .ok l ∧
      Json.value Json.get_int j "numbers_count" 0 = .ok n ∧
      Json.value Json.get_int j "total_characters" 0 = .ok t ∧
      Json.value Json.get_double j "processing_time_ms" 0 = .ok x ∧
      Json.value Json.get_string j "error_message" "" = .ok m ∧
      parse_response body
        = { success := a, letters_count := l, numbers_count := n, total_characters := t,
            processing_time_ms := x, error_message := m, raw_response := body }) ∨
    (∃ assigned e, parse_response body = parse_failure assigned body e) := by
  rcases except_cases (Json.parse body) with ⟨e, hp⟩ | ⟨j, hp⟩
  · exact Or.inr ⟨_, e, parse_response_of_parse_error body e hp⟩
  rcases except_cases (Json.value Json.get_bool j "success" false) with ⟨e, h1⟩ | ⟨a, h1⟩
  · exact Or.inr ⟨_, e, parse_response_fail_success body j e hp h1⟩
  rcases except_cases (Json.value Json.get_int j "letters_count" 0) with ⟨e, h2⟩ | ⟨l, h2⟩
  · exact Or.inr ⟨_, e, parse_response_fail_letters body j e a hp h1 h2⟩
  rcases except_cases (Json.value Json.get_int j "numbers_count" 0) with ⟨e, h3⟩ | ⟨n, h3⟩
  · exact Or.inr ⟨_, e, parse_response_fail_numbers body j e a l hp h1 h2 h3⟩
  rcases except_cases (Json.value Json.get_int j "total_characters" 0) with ⟨e, h4⟩ | ⟨t, h4⟩
  · exact Or.inr ⟨_, e, parse_response_fail_total body j e a l n hp h1 h2 h3 h4⟩
  rcases except_cases (Json.value Json.get_double j "processing_time_ms" 0)
    with ⟨e, h5⟩ | ⟨x, h5⟩
  · exact Or.inr ⟨_, e, parse_response_fail_time body j e a l n t hp h1 h2 h3 h4 h5⟩
  rcases except_cases (Json.value Json.get_string j "error_message" "") with ⟨e, h6⟩ | ⟨m, h6⟩
  · exact Or.inr ⟨_, e, parse_response_fail_message body j e a l n t x hp h1 h2 h3 h4 h5 h6⟩
  exact Or.inl ⟨j, a, l, n, t, x, m, hp, h1, h2, h3, h4, h5, h6,
    parse_response_all_read body j a l n t x m hp h1 h2 h3 h4 h5 h6⟩

theorem get_double_of_number (v : Json) (x : ℚ) (h : v.as_number = some x) :
    v.get_double = .ok x := by
  cases v <;> simp [Json.as_number] at h <;> simp [Json.get_double, h]

/-- Once the four fields before it are read, `processing_time_ms` is
what the read of its member gives, whatever happens to `error_message`. -/
theorem parse_response_time_read (body : String) (j : Json) (a : Bool) (l n t : Int)
    (x : ℚ) (hp : Json.parse body = .ok j)
    (h1 : Json.value Json.get_bool j "success" false = .ok a)
    (h2 : Json.value Json.get_int j "letters_count" 0 = .ok l)
    (h3 : Json.value Json.get_int j "numbers_count" 0 = .ok n)
    (h4 : Json.value Json.get_int j "total_characters" 0 = .ok t)
    (h5 : Json.value Json.get_double j "processing_time_ms" 0 = .ok x) :
    (parse_response body).processing_time_ms = x := by
  rcases except_cases (Json.value Json.get_string j "error_message" "") with ⟨e, h6⟩ | ⟨m, h6⟩
  · rw [parse_response_fail_message body j e a l n t x hp h1 h2 h3 h4 h5 h6]
    rfl
  · rw [parse_response_all_read body j a l n t x m hp h1 h2 h3 h4 h5 h6]

/-- The time in the result of `parse_response` is the default or what
the read of the member gives. -/
theorem parse_response_time_cases (body : String) :
    (parse_response body).processing_time_ms = 0 ∨
    ∃ j x, Json.parse body = .ok j ∧
      Json.value Json.get_double j "processing_time_ms" 0 = .ok x ∧
      (parse_response body).processing_time_ms = x := by
  rcases except_cases (Json.parse body) with ⟨e, hp⟩ | ⟨j, hp⟩
  · left
    rw [parse_response_of_parse_error body e hp]
    rfl
  rcases except_cases (Json.value Json.get_bool j "success" false) with ⟨e, h1⟩ | ⟨a, h1⟩
  · left
    rw [parse_response_fail_success body j e hp h1]
    rfl
  rcases except_cases (Json.value Json.get_int j "letters_count" 0) with ⟨e, h2⟩ | ⟨l, h2⟩
  · left
    rw [parse_response_fail_letters body j e a hp h1 h2]
    rfl
  rcases except_cases (Json.value Json.get_int j "numbers_count" 0) with ⟨e, h3⟩ | ⟨n, h3⟩
  · left
    rw [parse_response_fail_numbers body j e a l hp h1 h2 h3]
    rfl
  rcases except_cases (Json.value Json.get_int j "total_characters" 0) with ⟨e, h4⟩ | ⟨t, h4⟩
  · left
    rw [parse_response_fail_total body j e a l n hp h1 h2 h3 h4]
    rfl
  rcases except_cases (Json.value Json.get_double j "processing_time_ms" 0)
    with ⟨e, h5⟩ | ⟨x, h5⟩
  · left
    rw [parse_response_fail_time body j e a l n t hp h1 h2 h3 h4 h5]
    rfl
  · right
    exact ⟨j, x, hp, h5, parse_response_time_read body j a l n t x hp h1 h2 h3 h4 h5⟩

/-- What `process_text` returns for a response with status 200. -/
theorem process_text_of_ok (c : HttpClient) (net : Network) (text body : String)
    (h : net.answer (c.process_call text) = .response 200 body) :
    (c.process_text net text).1 = parse_response body := by
  unfold process_call at h
  simp only [process_text, make_request, h, if_true]

/-! ## Transport failures -/

/-- C1: when the transport returns no response to the `POST /process`
call, `process_text` returns `success = false`, the fixed connection
failure message (which is not empty) and an empty `raw_response`. -/
theorem process_text_no_response (c : HttpClient) (net : Network) (text : String)
    (h : net.answer (c.process_call text) = .no_response) :
    (c.process_text net text).1.success = false ∧
    (c.process_text net text).1.error_message = "Falha na conexão com o servidor" ∧
    (c.process_text net text).1.error_message ≠ "" ∧
    (c.process_text net text).1.raw_response = "" := by
  unfold process_call at h
  have hr : (c.process_text net text).1
      = { error_message := "Falha na conexão com o servidor" } := by
    simp only [process_text, make_request, h]
  rw [hr]
  exact ⟨rfl, rfl, by decide, rfl⟩

/-- Witness of C1 on a server that never answers. -/
theorem process_text_no_response_witness :
    (Network.fixed .no_response 0).answer ((new "localhost" 8080).process_call "abc 123")
      = HttpOutcome.no_response ∧
    ((new "localhost" 8080).process_text (Network.fixed .no_response 0)
      "abc 123").1.success = false ∧
    ((new "localhost" 8080).process_text (Network.fixed .no_response 0)
      "abc 123").1.error_message ≠ "" ∧
    ((new "localhost" 8080).process_text (Network.fixed .no_response 0)
      "abc 123").1.raw_response = "" :=
  have h := process_text_no_response (new "localhost" 8080)
    (Network.fixed .no_response 0) "abc 123" rfl
  ⟨rfl, h.1, h.2.2.1, h.2.2.2⟩

/-- C2: when the transport returns a response with a status `s` other
than 200 and a body `b`, `process_text` returns `success = false`, the
message `"Erro HTTP "` followed by the decimal rendering of `s`, which
therefore contains that rendering (`"404"` for 404), and `raw_response`
equal to `b`. -/
theorem process_text_http_error (c : HttpClient) (net : Network) (text : String)
    (s : Int) (b : String) (hs : s ≠ 200)
    (h : net.answer (c.process_call text) = .response s b) :
    (c.process_text net text).1.success = false ∧
    (c.process_text net text).1.error_message = "Erro HTTP " ++ to_string s ∧
    contains_text (c.process_text net text).1.error_message (to_string s) ∧
    to_string 404 = "404" ∧
    (c.process_text net text).1.raw_response = b := by
  unfold process_call at h
  have hr : (c.process_text net text).1
      = { raw_response := b
          processing_time_ms :=
            int_to_double (net.elapsed_ms (c.post_request "/process" (dump_text_request text)))
          error_message := "Erro HTTP " ++ to_string s } := by
    simp only [process_text, make_request, h, if_neg hs]
  rw [hr]
  refine ⟨rfl, rfl, ⟨"Erro HTTP ", "", ?_⟩, by decide, rfl⟩
  simp

/-- Witness of C2 on a server that answers 404. -/
theorem process_text_http_error_witness :
    (404 : Int) ≠ 200 ∧
    ((new "localhost" 8080).process_text
      (Network.fixed (.response 404 "Not Found") 3) "abc").1.success = false ∧
    ((new "localhost" 8080).process_text
      (Network.fixed (.response 404 "Not Found") 3) "abc").1.error_message
        = "Erro HTTP 404" ∧
    ((new "localhost" 8080).process_text
      (Network.fixed (.response 404 "Not Found") 3) "abc").1.raw_response
        = "Not Found" :=
  have h := process_text_http_error (new "localhost" 8080)
    (Network.fixed (.response 404 "Not Found") 3) "abc" 404 "Not Found" (by decide) rfl
  ⟨by decide, h.1, by rw [h.2.1]; decide, h.2.2.2.2⟩

/-! ## The health probe -/

/-- C6: `check_master_health` returns true exactly when the
`GET /health` call received a response whose status is 200; no
response, every other status and a raised exception return false. -/
theorem check_master_health_iff (c : HttpClient) (net : Network) :
    ((c.check_master_health net).1 = true ↔
      ∃ body, net.answer c.health_request = .response 200 body) ∧
    (net.answer c.health_request = .no_response →
      (c.check_master_health net).1 = false) ∧
    (∀ s body, s ≠ 200 → net.answer c.health_request = .response s body →
      (c.check_master_health net).1 = false) ∧
    (∀ e, net.answer c.health_request = .exception e →
      (c.check_master_health net).1 = false) := by
  refine ⟨?_, ?_, ?_, ?_⟩
  · unfold check_master_health
    cases hout : net.answer c.health_request with
    | no_response => simp [hout]
    | exception e => simp [hout]
    | response status body =>
      by_cases hs : status = 200
      · subst hs
        simp [hout]
      · simp [hout, hs]
  · intro h
    simp [check_master_health, h]
  · intro s body hs h
    simp [check_master_health, h, hs]
  · intro e h
    simp [check_master_health, h]

/-- Instance of C6: a server that answers 500 is not healthy, one that
answers 200 is. -/
theorem check_master_health_examples :
    ((new "localhost" 8080).check_master_health
      (Network.fixed (.response 500 "down") 1)).1 = false ∧
    ((new "localhost" 8080).check_master_health
      (Network.fixed (.response 200 "ok") 1)).1 = true :=
  ⟨((check_master_health_iff (new "localhost" 8080)
      (Network.fixed (.response 500 "down") 1)).2.2.1 500 "down" (by decide) rfl),
   ((check_master_health_iff (new "localhost" 8080)
      (Network.fixed (.response 200 "ok") 1)).1.mpr ⟨"ok", rfl⟩)⟩

/-! ## Files -/

/-- C7: for a path whose file cannot be opened, `process_file` returns
`success = false` with the file error message (which is not empty),
issues no request, and returns the same whatever the network would
have answered. -/
theorem process_file_unopenable (c : HttpClient) (fs : FileSystem) (net : Network)
    (file_path : String) (h : fs file_path = none) :
    (c.process_file fs net file_path).1.success = false ∧
    (c.process_file fs net file_path).1.error_message
      = "Erro ao ler arquivo: Não foi possível abrir o arquivo: " ++ file_path ∧
    (c.process_file fs net file_path).1.error_message ≠ "" ∧
    (c.process_file fs net file_path).2 = [] ∧
    ∀ other : Network, c.process_file fs other file_path = c.process_file fs net file_path := by
  have hr : ∀ n : Network, c.process_file fs n file_path
      = ({ error_message :=
            "Erro ao ler arquivo: " ++ ("Não foi possível abrir o arquivo: " ++ file_path) },
          []) := by
    intro n
    simp only [process_file, read_file_content, h]
  rw [hr net]
  refine ⟨rfl, ?_, ?_, rfl, fun other => hr other⟩
  · show "Erro ao ler arquivo: " ++ ("Não foi possível abrir o arquivo: " ++ file_path) = _
    rw [← String.append_assoc]
    rfl
  · exact append_ne_empty_of_left _ _ (by decide)

/-- Witness of C7 on an empty file system, with a server that would
have answered. -/
theorem process_file_unopenable_witness :
    (fun _ => none : FileSystem) "missing.txt" = none ∧
    ((new "localhost" 8080).process_file (fun _ => none)
      (Network.fixed (.response 200 "\x7b\"success\":true\x7d") 1) "missing.txt").1.success
      = false ∧
    ((new "localhost" 8080).process_file (fun _ => none)
      (Network.fixed (.response 200 "\x7b\"success\":true\x7d") 1) "missing.txt").1.error_message
      ≠ "" ∧
    ((new "localhost" 8080).process_file (fun _ => none)
      (Network.fixed (.response 200 "\x7b\"success\":true\x7d") 1) "missing.txt").2 = [] :=
  have h := process_file_unopenable (new "localhost" 8080) (fun _ => none)
    (Network.fixed (.response 200 "\x7b\"success\":true\x7d") 1) "missing.txt" rfl
  ⟨rfl, h.1, h.2.2.1, h.2.2.2.1⟩

/-! ## The endpoint configuration -/

/-- C10: after `set_master_address(host, port)` the URL is
`"http://" + host + ":" + port`; a second call with the same arguments
changes nothing; and in every state the program reaches the URL is the
composition of the current host and port. -/
theorem set_master_address_idempotent (c : HttpClient) (host : String) (port : Int) :
    (c.set_master_address host port).get_master_url
      = "http://" ++ host ++ ":" ++ to_string port ∧
    (c.set_master_address host port).master_host = host ∧
    (c.set_master_address host port).master_port = port ∧
    (c.set_master_address host port).set_master_address host port
      = c.set_master_address host port ∧
    ((c.set_master_address host port).set_master_address host port).get_master_url
      = (c.set_master_address host port).get_master_url ∧
    (new host port).get_master_url = "http://" ++ host ++ ":" ++ to_string port ∧
    ∀ r : HttpClient, Reachable r →
      r.get_master_url = "http://" ++ r.master_host ++ ":" ++ to_string r.master_port := by
  refine ⟨rfl, rfl, rfl, rfl, rfl, rfl, ?_⟩
  intro r hr
  cases hr <;> rfl

/-! ## The payload of a 200 response -/

/-- C3 does not hold as stated: in this payload `success` is present
as a boolean and `error_message` is absent, yet the result holds
`success = false` and a message, because `numbers_count` is a string
and its read throws. -/
theorem typed_success_not_taken :
    Json.parse "\x7b\"success\":true,\"letters_count\":5,\"numbers_count\":\"2\"\x7d"
      = .ok (.object [("success", .boolean true), ("letters_count", .number_unsigned 5),
          ("numbers_count", .string "2")]) ∧
    ((new "localhost" 8080).process_text
      (Network.fixed
        (.response 200 "\x7b\"success\":true,\"letters_count\":5,\"numbers_count\":\"2\"\x7d")
        40) "abc12").1
      = { success := false
          letters_count := 5
          numbers_count := 0
          total_characters := 0
          processing_time_ms := 0
          error_message :=
            "Erro ao parsear resposta JSON: [json.exception.type_error.302] type must be number, but is string"
          raw_response :=
            "\x7b\"success\":true,\"letters_count\":5,\"numbers_count\":\"2\"\x7d" } :=
  ⟨rfl, by decide⟩

/-- C3 as amended: for a response with status 200 whose body parses as
a JSON object in which no one of the six fields has a type its read
rejects, the result of `process_text` takes each of `success`,
`letters_count`, `numbers_count`, `total_characters`,
`processing_time_ms` and `error_message` from the member of that name
when it is present with the expected type, and the default (false, 0,
0, 0, 0.0, empty) when the member is absent; `raw_response` is the
body. -/
theorem process_text_reads_payload (c : HttpClient) (net : Network) (text body : String)
    (members : List (String × Json))
    (hresp : net.answer (c.process_call text) = .response 200 body)
    (hparse : Json.parse body = .ok (.object members))
    (r1 : readable Json.get_bool "success" members = true)
    (r2 : readable Json.get_int "letters_count" members = true)
    (r3 : readable Json.get_int "numbers_count" members = true)
    (r4 : readable Json.get_int "total_characters" members = true)
    (r5 : readable Json.get_double "processing_time_ms" members = true)
    (r6 : readable Json.get_string "error_message" members = true) :
    (absent_or_typed Json.as_bool "success" members = true →
      (c.process_text net text).1.success
        = field_or Json.as_bool "success" members false) ∧
    (absent_or_typed Json.as_int "letters_count" members = true →
      (c.process_text net text).1.letters_count
        = field_or Json.as_int "letters_count" members 0) ∧
    (absent_or_typed Json.as_int "numbers_count" members = true →
      (c.process_text net text).1.numbers_count
        = field_or Json.as_int "numbers_count" members 0) ∧
    (absent_or_typed Json.as_int "total_characters" members = true →
      (c.process_text net text).1.total_characters
        = field_or Json.as_int "total_characters" members 0) ∧
    (absent_or_typed Json.as_number "processing_time_ms" members = true →
      (c.process_text net text).1.processing_time_ms
        = field_or Json.as_number "processing_time_ms" members 0) ∧
    (absent_or_typed Json.as_string "error_message" members = true →
      (c.process_text net text).1.error_message
        = field_or Json.as_string "error_message" members "") ∧
    (c.process_text net text).1.raw_response = body := by
  obtain ⟨a, h1⟩ := value_ok_of_readable Json.get_bool members "success" false r1
  obtain ⟨l, h2⟩ := value_ok_of_readable Json.get_int members "letters_count" 0 r2
  obtain ⟨n, h3⟩ := value_ok_of_readable Json.get_int members "numbers_count" 0 r3
  obtain ⟨t, h4⟩ := value_ok_of_readable Json.get_int members "total_characters" 0 r4
  obtain ⟨x, h5⟩ := value_ok_of_readable Json.get_double members "processing_time_ms" 0 r5
  obtain ⟨m, h6⟩ := value_ok_of_readable Json.get_string members "error_message" "" r6
  rw [process_text_of_ok c net text body hresp,
    parse_response_all_read body (.object members) a l n t x m hparse h1 h2 h3 h4 h5 h6]
  refine ⟨?_, ?_, ?_, ?_, ?_, ?_, rfl⟩
  · intro ht
    have h := value_bool_of_typed members "success" false ht
    rw [h1] at h
    exact Except.ok.inj h
  · intro ht
    have h := value_int_of_typed members "letters_count" 0 ht
    rw [h2] at h
    exact Except.ok.inj h
  · intro ht
    have h := value_int_of_typed members "numbers_count" 0 ht
    rw [h3] at h
    exact Except.ok.inj h
  · intro ht
    have h := value_int_of_typed members "total_characters" 0 ht
    rw [h4] at h
    exact Except.ok.inj h
  · intro ht
    have h := value_double_of_typed members "processing_time_ms" 0 ht
    rw [h5] at h
    exact Except.ok.inj h
  · intro ht
    have h := value_string_of_typed members "error_message" "" ht
    rw [h6] at h
    exact Except.ok.inj h

/-- Witness of C3 as amended on the two payloads of the specification:
the full success payload, and the failure payload with the server's
message. -/
theorem process_text_reads_payload_witness :
    (((new "localhost" 8080).process_text
        (Network.fixed (.response 200
          "\x7b\"success\":true,\"letters_count\":5,\"numbers_count\":2,\"total_characters\":7,\"processing_time_ms\":12.5\x7d")
          40) "abc12 de").1.success = true ∧
      ((new "localhost" 8080).process_text
        (Network.fixed (.response 200
          "\x7b\"success\":true,\"letters_count\":5,\"numbers_count\":2,\"total_characters\":7,\"processing_time_ms\":12.5\x7d")
          40) "abc12 de").1.letters_count = 5 ∧
      ((new "localhost" 8080).process_text
        (Network.fixed (.response 200
          "\x7b\"success\":true,\"letters_count\":5,\"numbers_count\":2,\"total_characters\":7,\"processing_time_ms\":12.5\x7d")
          40) "abc12 de").1.numbers_count = 2 ∧
      ((new "localhost" 8080).process_text
        (Network.fixed (.response 200
          "\x7b\"success\":true,\"letters_count\":5,\"numbers_count\":2,\"total_characters\":7,\"processing_time_ms\":12.5\x7d")
          40) "abc12 de").1.total_characters = 7 ∧
      ((new "localhost" 8080).process_text
        (Network.fixed (.response 200
          "\x7b\"success\":true,\"letters_count\":5,\"numbers_count\":2,\"total_characters\":7,\"processing_time_ms\":12.5\x7d")
          40) "abc12 de").1.processing_time_ms = 12.5 ∧
      ((new "localhost" 8080).process_text
        (Network.fixed (.response 200
          "\x7b\"success\":true,\"letters_count\":5,\"numbers_count\":2,\"total_characters\":7,\"processing_time_ms\":12.5\x7d")
          40) "abc12 de").1.error_message = "") ∧
    (((new "localhost" 8080).process_text
        (Network.fixed (.response 200 "\x7b\"success\":false,\"error_message\":\"bad input\"\x7d")
          40) "").1.success = false ∧
      ((new "localhost" 8080).process_text
        (Network.fixed (.response 200 "\x7b\"success\":false,\"error_message\":\"bad input\"\x7d")
          40) "").1.error_message = "bad input") := by
  have h := process_text_reads_payload (new "localhost" 8080)
    (Network.fixed (.response 200
      "\x7b\"success\":true,\"letters_count\":5,\"numbers_count\":2,\"total_characters\":7,\"processing_time_ms\":12.5\x7d")
      40) "abc12 de"
    "\x7b\"success\":true,\"letters_count\":5,\"numbers_count\":2,\"total_characters\":7,\"processing_time_ms\":12.5\x7d"
    [("success", .boolean true), ("letters_count", .number_unsigned 5),
      ("numbers_count", .number_unsigned 2), ("total_characters", .number_unsigned 7),
      ("processing_time_ms", .number_float (mkRat 25 2))]
    rfl rfl (by decide) (by decide) (by decide) (by decide) (by decide) (by decide)
  have g := process_text_reads_payload (new "localhost" 8080)
    (Network.fixed (.response 200 "\x7b\"success\":false,\"error_message\":\"bad input\"\x7d")
      40) "" "\x7b\"success\":false,\"error_message\":\"bad input\"\x7d"
    [("success", .boolean false), ("error_message", .string "bad input")]
    rfl rfl (by decide) (by decide) (by decide) (by decide) (by decide) (by decide)
  have h125 : (12.5 : ℚ) = mkRat 25 2 := by norm_num [Rat.mkRat_eq_div]
  refine ⟨⟨(h.1 (by decide)).trans (by decide), (h.2.1 (by decide)).trans (by decide),
    (h.2.2.1 (by decide)).trans (by decide), (h.2.2.2.1 (by decide)).trans (by decide),
    ?_, (h.2.2.2.2.2.1 (by decide)).trans (by decide)⟩,
    ⟨(g.1 (by decide)).trans (by decide), (g.2.2.2.2.2.1 (by decide)).trans (by decide)⟩⟩
  rw [h125]
  exact (h.2.2.2.2.1 (by decide)).trans (by decide)

/-- C4: for a response with status 200 whose body is not valid JSON, or
is valid JSON but not an object, `process_text` returns
`success = false`, the parse error message followed by the parser's
diagnostic (so it is not empty), and `raw_response` equal to the body. -/
theorem process_text_unparsable (c : HttpClient) (net : Network) (text body : String)
    (hresp : net.answer (c.process_call text) = .response 200 body)
    (hbad : (∃ e, Json.parse body = .error e) ∨
      (∃ j, Json.parse body = .ok j ∧ j.is_object = false)) :
    (c.process_text net text).1.success = false ∧
    (∃ details, (c.process_text net text).1.error_message
      = "Erro ao parsear resposta JSON: " ++ details) ∧
    (c.process_text net text).1.error_message ≠ "" ∧
    (c.process_text net text).1.raw_response = body := by
  rw [process_text_of_ok c net text body hresp]
  have hfail : ∃ e, parse_response body = parse_failure {} body e := by
    rcases hbad with ⟨e, he⟩ | ⟨j, hj, hobj⟩
    · exact ⟨e, parse_response_of_parse_error body e he⟩
    · exact ⟨_, parse_response_fail_success body j _ hj
        (value_of_not_object Json.get_bool j "success" false hobj)⟩
  obtain ⟨e, he⟩ := hfail
  rw [he]
  exact ⟨rfl, ⟨e.what, rfl⟩, append_ne_empty_of_left _ _ (by decide), rfl⟩

/-- Witness of C4 on the body `not json`, which is no JSON text, and on
the body `[1,2]`, which is JSON but no object. -/
theorem process_text_unparsable_witness :
    (((new "localhost" 8080).process_text
        (Network.fixed (.response 200 "not json") 40) "abc").1.success = false ∧
      ((new "localhost" 8080).process_text
        (Network.fixed (.response 200 "not json") 40) "abc").1.error_message ≠ "" ∧
      ((new "localhost" 8080).process_text
        (Network.fixed (.response 200 "not json") 40) "abc").1.raw_response
        = "not json") ∧
    (((new "localhost" 8080).process_text
        (Network.fixed (.response 200 "[1,2]") 40) "abc").1.success = false ∧
      ((new "localhost" 8080).process_text
        (Network.fixed (.response 200 "[1,2]") 40) "abc").1.raw_response = "[1,2]") :=
  have h1 := process_text_unparsable (new "localhost" 8080)
    (Network.fixed (.response 200 "not json") 40) "abc" "not json" rfl
    (Or.inl ⟨parse_error "invalid literal", rfl⟩)
  have h2 := process_text_unparsable (new "localhost" 8080)
    (Network.fixed (.response 200 "[1,2]") 40) "abc" "[1,2]" rfl
    (Or.inr ⟨.array [.number_unsigned 1, .number_unsigned 2], rfl, rfl⟩)
  ⟨⟨h1.1, h1.2.2.1, h1.2.2.2⟩, ⟨h2.1, h2.2.2.2⟩⟩

/-! ## Success and the error message -/

/-- C5 does not hold as stated: a 200 response whose payload declares
`success` together with an `error_message` yields `success = true` and
a non-empty `error_message`. -/
theorem success_with_error_message :
    ((new "localhost" 8080).process_text
      (Network.fixed (.response 200 "\x7b\"success\":true,\"error_message\":\"half done\"\x7d") 40)
      "abc").1.success = true ∧
    ((new "localhost" 8080).process_text
      (Network.fixed (.response 200 "\x7b\"success\":true,\"error_message\":\"half done\"\x7d") 40)
      "abc").1.error_message = "half done" ∧
    ((new "localhost" 8080).process_text
      (Network.fixed (.response 200 "\x7b\"success\":true,\"error_message\":\"half done\"\x7d") 40)
      "abc").1.error_message ≠ "" := by
  decide

/-- C5 as amended: if the result of `process_text` has `success = true`
then the response had status 200, its body parsed as a JSON object
whose `success` member is `true`, and `error_message` is the string
member `error_message` of that object, hence empty when the object has
no such member. -/
theorem success_implies_payload_message (c : HttpClient) (net : Network) (text : String)
    (h : (c.process_text net text).1.success = true) :
    ∃ body members,
      net.answer (c.process_call text) = .response 200 body ∧
      Json.parse body = .ok (.object members) ∧
      Json.find "success" members = some (.boolean true) ∧
      (c.process_text net text).1.error_message
        = field_or Json.as_string "error_message" members "" ∧
      (Json.find "error_message" members = none →
        (c.process_text net text).1.error_message = "") := by
  cases hout : net.answer (c.process_call text) with
  | no_response =>
    unfold process_call at hout
    simp [process_text, make_request, hout] at h
  | exception e =>
    unfold process_call at hout
    simp [process_text, make_request, hout] at h
  | response status body =>
    by_cases hs : status = 200
    · subst hs
      rw [process_text_of_ok c net text body hout] at h ⊢
      rcases parse_response_cases body with
        ⟨j, a, l, n, t, x, m, hp, h1, _, _, _, _, h6, hr⟩ | ⟨pr, e, hr⟩
      · rw [hr] at h ⊢
        have ha : a = true := h
        subst ha
        obtain ⟨members, rfl⟩ := value_ok_is_object _ _ _ _ _ h1
        have hm := value_string_read members "error_message" "" m h6
        refine ⟨body, members, rfl, hp, value_bool_true members "success" h1, hm, ?_⟩
        intro hnone
        show m = ""
        rw [hm]
        simp only [field_or, hnone]
      · rw [hr] at h
        cases h
    · unfold process_call at hout
      simp [process_text, make_request, hout, hs] at h

/-- Witness of C5 as amended, on a payload that declares success
without a message. -/
theorem success_implies_payload_message_witness :
    ((new "localhost" 8080).process_text
      (Network.fixed (.response 200 "\x7b\"success\":true,\"letters_count\":3\x7d") 40)
      "abc").1.success = true ∧
    ((new "localhost" 8080).process_text
      (Network.fixed (.response 200 "\x7b\"success\":true,\"letters_count\":3\x7d") 40)
      "abc").1.error_message = "" ∧
    ∃ body members,
      (Network.fixed (.response 200 "\x7b\"success\":true,\"letters_count\":3\x7d") 40).answer
        ((new "localhost" 8080).process_call "abc") = .response 200 body ∧
      Json.parse body = .ok (.object members) ∧
      Json.find "success" members = some (.boolean true) :=
  have h := success_implies_payload_message (new "localhost" 8080)
    (Network.fixed (.response 200 "\x7b\"success\":true,\"letters_count\":3\x7d") 40) "abc"
    (by decide)
  ⟨by decide, by decide,
    h.elim fun body hb => hb.elim fun members hm => ⟨body, members, hm.1, hm.2.1, hm.2.2.1⟩⟩

/-! ## The measured duration -/

/-- C8 does not hold as stated: for a 200 response whose payload has no
`processing_time_ms` member, and for a 200 response that is no JSON,
the result holds 0 and not the 7 milliseconds that were measured. -/
theorem processing_time_not_measured :
    int_to_double ((Network.fixed (.response 200 "\x7b\"success\":true,\"letters_count\":3\x7d") 7).elapsed_ms
      ((new "localhost" 8080).process_call "abc")) = 7 ∧
    ((new "localhost" 8080).process_text
      (Network.fixed (.response 200 "\x7b\"success\":true,\"letters_count\":3\x7d") 7)
      "abc").1.processing_time_ms = 0 ∧
    ((new "localhost" 8080).process_text
      (Network.fixed (.response 200 "not json") 7) "abc").1.processing_time_ms = 0 := by
  decide

/-- C8 as amended: for a received response, `processing_time_ms` is the
measured duration when the status is not 200. When the status is 200 it
is never the measured duration: it is 0 when the body is not JSON, is
JSON but not an object, or is an object without the member
`processing_time_ms`; and it is the server's number when the body is an
object whose `success` and count members are readable and whose
`processing_time_ms` member is a number. -/
theorem processing_time_of_response (c : HttpClient) (net : Network) (text : String)
    (s : Int) (b : String) (h : net.answer (c.process_call text) = .response s b) :
    (s ≠ 200 →
      (c.process_text net text).1.processing_time_ms
        = int_to_double (net.elapsed_ms (c.process_call text))) ∧
    (s = 200 →
      (∀ e, Json.parse b = .error e → (c.process_text net text).1.processing_time_ms = 0) ∧
      (∀ j, Json.parse b = .ok j → j.is_object = false →
        (c.process_text net text).1.processing_time_ms = 0) ∧
      (∀ members, Json.parse b = .ok (.object members) →
        Json.find "processing_time_ms" members = none →
        (c.process_text net text).1.processing_time_ms = 0) ∧
      (∀ members v x, Json.parse b = .ok (.object members) →
        readable Json.get_bool "success" members = true →
        readable Json.get_int "letters_count" members = true →
        readable Json.get_int "numbers_count" members = true →
        readable Json.get_int "total_characters" members = true →
        Json.find "processing_time_ms" members = some v → v.as_number = some x →
        (c.process_text net text).1.processing_time_ms = x)) := by
  constructor
  · intro hs
    unfold process_call at h ⊢
    simp only [process_text, make_request, h, if_neg hs]
  · intro hs
    subst hs
    rw [process_text_of_ok c net text b h]
    refine ⟨?_, ?_, ?_, ?_⟩
    · intro e hp
      rw [parse_response_of_parse_error b e hp]
      rfl
    · intro j hp hobj
      rw [parse_response_fail_success b j _ hp
        (value_of_not_object Json.get_bool j "success" false hobj)]
      rfl
    · intro members hp hnone
      rcases parse_response_time_cases b with h0 | ⟨j, x, hj, h5, hx⟩
      · exact h0
      · rw [hp] at hj
        cases hj
        rw [value_of_find_none Json.get_double members _ _ hnone] at h5
        cases h5
        exact hx
    · intro members v x hp r1 r2 r3 r4 hv hnum
      obtain ⟨a, h1⟩ := value_ok_of_readable Json.get_bool members "success" false r1
      obtain ⟨l, h2⟩ := value_ok_of_readable Json.get_int members "letters_count" 0 r2
      obtain ⟨n, h3⟩ := value_ok_of_readable Json.get_int members "numbers_count" 0 r3
      obtain ⟨t, h4⟩ := value_ok_of_readable Json.get_int members "total_characters" 0 r4
      have h5 : Json.value Json.get_double (.object members) "processing_time_ms" 0 = .ok x := by
        rw [value_of_find_some Json.get_double members _ _ v hv]
        exact get_double_of_number v x hnum
      exact parse_response_time_read b _ a l n t x hp h1 h2 h3 h4 h5

/-- Witness of C8 as amended, on a server that answers 503 after 7
milliseconds. -/
theorem processing_time_of_response_witness :
    (Network.fixed (.response 503 "busy") 7).answer
      ((new "localhost" 8080).process_call "abc") = .response 503 "busy" ∧
    ((new "localhost" 8080).process_text
      (Network.fixed (.response 503 "busy") 7) "abc").1.processing_time_ms = 7 :=
  have h := processing_time_of_response (new "localhost" 8080)
    (Network.fixed (.response 503 "busy") 7) "abc" 503 "busy" rfl
  ⟨rfl, (h.1 (by decide)).trans (by decide)⟩

/-! ## Members of an unexpected type -/

/-- C9 does not hold as stated: with `letters_count` given as a string
the whole parse fails. The result reports the type error, `success`
is false although the payload says true, and `numbers_count` is 0
although the payload says 2. -/
theorem mistyped_field_fails_parse :
    parse_response "\x7b\"success\":true,\"letters_count\":\"5\",\"numbers_count\":2\x7d"
      = { success := false
          letters_count := 0
          numbers_count := 0
          total_characters := 0
          processing_time_ms := 0
          error_message :=
            "Erro ao parsear resposta JSON: [json.exception.type_error.302] type must be number, but is string"
          raw_response := "\x7b\"success\":true,\"letters_count\":\"5\",\"numbers_count\":2\x7d" } := by
  decide

/-- C9 as amended: when the body is a JSON object in which one of the
six fields has a type that its typed read rejects, `parse_response`
fails the whole parse: `success` is false, `error_message` is the parse
error message with the library's type error, and `raw_response` is the
body. The rejected count or time field, and the count and time fields
read after a rejected field, hold their default 0. -/
theorem parse_response_rejects_mistyped (body : String) (members : List (String × Json))
    (hparse : Json.parse body = .ok (.object members))
    (hbad : rejected Json.get_bool "success" members ∨
      rejected Json.get_int "letters_count" members ∨
      rejected Json.get_int "numbers_count" members ∨
      rejected Json.get_int "total_characters" members ∨
      rejected Json.get_double "processing_time_ms" members ∨
      rejected Json.get_string "error_message" members) :
    (parse_response body).success = false ∧
    (∃ detail, (parse_response body).error_message
      = "Erro ao parsear resposta JSON: " ++ (type_error_302 detail).what) ∧
    (parse_response body).raw_response = body ∧
    (rejected Json.get_bool "success" members ∨
        rejected Json.get_int "letters_count" members →
      (parse_response body).letters_count = 0 ∧ (parse_response body).numbers_count = 0 ∧
      (parse_response body).total_characters = 0 ∧
      (parse_response body).processing_time_ms = 0) ∧
    (rejected Json.get_int "numbers_count" members →
      (parse_response body).numbers_count = 0 ∧
      (parse_response body).total_characters = 0 ∧
      (parse_response body).processing_time_ms = 0) ∧
    (rejected Json.get_int "total_characters" members →
      (parse_response body).total_characters = 0 ∧
      (parse_response body).processing_time_ms = 0) ∧
    (rejected Json.get_double "processing_time_ms" members →
      (parse_response body).processing_time_ms = 0) := by
  rcases except_cases (Json.value Json.get_bool (.object members) "success" false)
    with ⟨e, h1⟩ | ⟨a, h1⟩
  · obtain ⟨detail, rfl⟩ := value_error_is_type_error _ get_bool_error _ _ _ _ h1
    rw [parse_response_fail_success body _ _ hparse h1]
    exact ⟨rfl, ⟨detail, rfl⟩, rfl, fun _ => ⟨rfl, rfl, rfl, rfl⟩,
      fun _ => ⟨rfl, rfl, rfl⟩, fun _ => ⟨rfl, rfl⟩, fun _ => rfl⟩
  have n1 := not_rejected_of_ok _ _ _ _ _ h1
  rcases except_cases (Json.value Json.get_int (.object members) "letters_count" 0)
    with ⟨e, h2⟩ | ⟨l, h2⟩
  · obtain ⟨detail, rfl⟩ := value_error_is_type_error _ get_int_error _ _ _ _ h2
    rw [parse_response_fail_letters body _ _ a hparse h1 h2]
    exact ⟨rfl, ⟨detail, rfl⟩, rfl, fun _ => ⟨rfl, rfl, rfl, rfl⟩,
      fun _ => ⟨rfl, rfl, rfl⟩, fun _ => ⟨rfl, rfl⟩, fun _ => rfl⟩
  have n2 := not_rejected_of_ok _ _ _ _ _ h2
  have n12 : ¬ (rejected Json.get_bool "success" members ∨
      rejected Json.get_int "letters_count" members) := fun h => h.elim n1 n2
  rcases except_cases (Json.value Json.get_int (.object members) "numbers_count" 0)
    with ⟨e, h3⟩ | ⟨n, h3⟩
  · obtain ⟨detail, rfl⟩ := value_error_is_type_error _ get_int_error _ _ _ _ h3
    rw [parse_response_fail_numbers body _ _ a l hparse h1 h2 h3]
    exact ⟨rfl, ⟨detail, rfl⟩, rfl, fun r => absurd r n12,
      fun _ => ⟨rfl, rfl, rfl⟩, fun _ => ⟨rfl, rfl⟩, fun _ => rfl⟩
  have n3 := not_rejected_of_ok _ _ _ _ _ h3
  rcases except_cases (Json.value Json.get_int (.object members) "total_characters" 0)
    with ⟨e, h4⟩ | ⟨t, h4⟩
  · obtain ⟨detail, rfl⟩ := value_error_is_type_error _ get_int_error _ _ _ _ h4
    rw [parse_response_fail_total body _ _ a l n hparse h1 h2 h3 h4]
    exact ⟨rfl, ⟨detail, rfl⟩, rfl, fun r => absurd r n12,
      fun r => absurd r n3, fun _ => ⟨rfl, rfl⟩, fun _ => rfl⟩
  have n4 := not_rejected_of_ok _ _ _ _ _ h4
  rcases except_cases (Json.value Json.get_double (.object members) "processing_time_ms" 0)
    with ⟨e, h5⟩ | ⟨x, h5⟩
  · obtain ⟨detail, rfl⟩ := value_error_is_type_error _ get_double_error _ _ _ _ h5
    rw [parse_response_fail_time body _ _ a l n t hparse h1 h2 h3 h4 h5]
    exact ⟨rfl, ⟨detail, rfl⟩, rfl, fun r => absurd r n12,
      fun r => absurd r n3, fun r => absurd r n4, fun _ => rfl⟩
  have n5 := not_rejected_of_ok _ _ _ _ _ h5
  rcases except_cases (Json.value Json.get_string (.object members) "error_message" "")
    with ⟨e, h6⟩ | ⟨m, h6⟩
  · obtain ⟨detail, rfl⟩ := value_error_is_type_error _ get_string_error _ _ _ _ h6
    rw [parse_response_fail_message body _ _ a l n t x hparse h1 h2 h3 h4 h5 h6]
    exact ⟨rfl, ⟨detail, rfl⟩, rfl, fun r => absurd r n12,
      fun r => absurd r n3, fun r => absurd r n4, fun r => absurd r n5⟩
  have n6 := not_rejected_of_ok _ _ _ _ _ h6
  rcases hbad with r | r | r | r | r | r
  · exact absurd r n1
  · exact absurd r n2
  · exact absurd r n3
  · exact absurd r n4
  · exact absurd r n5
  · exact absurd r n6

/-- Witness of C9 as amended, on a payload whose `total_characters` is
a string: the parse fails and the fields read before it keep the
payload's values. -/
theorem parse_response_rejects_mistyped_witness :
    Json.parse "\x7b\"letters_count\":4,\"total_characters\":\"7\",\"processing_time_ms\":1.5\x7d"
      = .ok (.object [("letters_count", .number_unsigned 4),
          ("total_characters", .string "7"),
          ("processing_time_ms", .number_float (mkRat 3 2))]) ∧
    (parse_response
      "\x7b\"letters_count\":4,\"total_characters\":\"7\",\"processing_time_ms\":1.5\x7d").success
      = false ∧
    (parse_response
      "\x7b\"letters_count\":4,\"total_characters\":\"7\",\"processing_time_ms\":1.5\x7d").letters_count
      = 4 ∧
    (parse_response
      "\x7b\"letters_count\":4,\"total_characters\":\"7\",\"processing_time_ms\":1.5\x7d").total_characters
      = 0 ∧
    (parse_response
      "\x7b\"letters_count\":4,\"total_characters\":\"7\",\"processing_time_ms\":1.5\x7d").processing_time_ms
      = 0 :=
  have hr : rejected Json.get_int "total_characters"
      [("letters_count", .number_unsigned 4), ("total_characters", .string "7"),
        ("processing_time_ms", .number_float (mkRat 3 2))] :=
    rfl
  have h := parse_response_rejects_mistyped
    "\x7b\"letters_count\":4,\"total_characters\":\"7\",\"processing_time_ms\":1.5\x7d"
    [("letters_count", .number_unsigned 4), ("total_characters", .string "7"),
      ("processing_time_ms", .number_float (mkRat 3 2))]
    rfl (Or.inr (Or.inr (Or.inr (Or.inl hr))))
  ⟨rfl, h.1, by decide, (h.2.2.2.2.2.1 hr).1, (h.2.2.2.2.2.1 hr).2⟩

end MasterClient
